import Mathlib

/-
Verification of scripts/post_to_telegram.py.

Modelling conventions:
- JSON values are the inductive `J`; Python dicts are association lists with
  distinct keys, in insertion order.
- The state file is modelled at the level of decoded JSON: a file system maps
  a path to `none` (file absent) or `some content`, where `content : Option J`
  is `none` for a file whose bytes are not valid JSON (json.load raises) and
  `some j` for a file whose text decodes to `j`.  `json.dump`/`json.load`
  invert each other on JSON values, so the text layer is elided.
- `dateutil.parser.parse` and `int(...)` on strings are abstracted as
  parameters `pDate pInt : String → Option Int` (`none` models an exception).
  A parsed date is represented by its UTC instant (an integer timeline), so
  the naive-datetime tz-replace of the source is absorbed by the parameter;
  `datetime.now(timezone.utc)` is the parameter `now` on the same timeline.
- Python strings in the caption formatter are `List Char` (Python `len`
  counts code points, as does `List.length` on `String.data`).
- A Python set of ints is modelled by a duplicate-free `List Int`
  representative: `set(xs)` is `xs.dedup`, `s.add x` is `List.insert x s`,
  and `sorted(list(s))` is a stable ascending sort of the representative.
- Python's `sorted` (a stable ascending sort by key) is modelled by
  `List.insertionSort`, which is also stable; a stable sort's output is
  uniquely determined by the key order, so the two agree.
-/

namespace PostToTelegram

/-- JSON values (floats do not occur in the data handled by the script). -/
inductive J where
  | null
  | bool (b : Bool)
  | int (n : Int)
  | str (s : String)
  | arr (elems : List J)
  | obj (kvs : List (String × J))

/-- Key lookup in a JSON object association list (Python `d[k]` / `k in d`). -/
def lookupKey (k : String) : List (String × J) → Option J
  | [] => none
  | (k', v) :: rest => if k' = k then some v else lookupKey k rest

/-- Python `d[k] = v` on an association list: replace in place, else append. -/
def setKeyList (k : String) (v : J) : List (String × J) → List (String × J)
  | [] => [(k, v)]
  | (k', v') :: rest => if k' = k then (k, v) :: rest else (k', v') :: setKeyList k v rest

/-- Mutation `state[k] = v` of a JSON value known to be an object (the script
only mutates the loaded state dict; the non-object branch is unreachable). -/
def setKey (st : J) (k : String) (v : J) : J :=
  match st with
  | J.obj kvs => J.obj (setKeyList k v kvs)
  | j => j

/-- Read access `state.get(k)` on a JSON object. -/
def getKey (st : J) (k : String) : Option J :=
  match st with
  | J.obj kvs => lookupKey k kvs
  | _ => none

/-- A file system: path to `none` (absent) or `some content`; content `none`
stands for bytes that are not valid JSON (see header comment). -/
def FS : Type := String → Option (Option J)

/-- The fresh state returned when no snapshot file exists
(`{"published_ids": [], "last_run": None}`, line 37 of the script). -/
def emptyState : J :=
  J.obj [(("published_ids"), J.arr []), (("last_run"), J.null)]

/-- load_state (lines 35-39): missing file gives the fresh empty state; an
existing file is json.load'ed, and undecodable content raises (uncaught). -/
def load_state (fs : FS) (path : String) : Except Unit J :=
  match fs path with
  | none => Except.ok emptyState
  | some none => Except.error ()
  | some (some j) => Except.ok j

/-- save_state (lines 41-43): json.dump the state to the file. -/
def save_state (fs : FS) (path : String) (state : J) : FS :=
  fun p => if p = path then some (some state) else fs p

/-- The value as a JSON sequence, if it is one (`isinstance(v, list)`). -/
def asList : J → Option (List J)
  | J.arr l => some l
  | _ => none

/-- fetch_coupons (lines 57-79).  The argument is the decoded response body;
`none` models any transport or decoding exception (caught, returns []). -/
def fetch_coupons (body : Option J) : List J :=
  match body with
  | none => []
  | some (J.obj kvs) =>
    match lookupKey ("data") kvs with
    | some (J.arr l) => l
    | _ =>
      match (kvs.map Prod.snd).findSome? asList with
      | some l => l
      | none => []
  | some (J.arr l) => l
  | some _ => []

/-- A coupon record: the fields the script reads, each an optional string
(numeric field values are absorbed by the abstract `int`/date parsers).  The
logo-url fields only choose between sendPhoto and sendMessage, which are
modelled uniformly, so they are omitted. -/
structure Coupon where
  coupon_id : Option String := none
  id : Option String := none
  is_visible : Option String := none
  expires_at : Option String := none
  created_at : Option String := none
  title : Option String := none
  discount_text : Option String := none
  code : Option String := none
  countries : Option String := none
  note : Option String := none
  purchase_link : Option String := none
deriving DecidableEq

/-- Python truthiness for an optional string field: `None` and `""` are falsy;
`truthy x` is `some s` when the field holds a truthy value `s`. -/
def truthy (x : Option String) : Option String :=
  match x with
  | none => none
  | some s => if s = "" then none else some s

/-- Python `x or y` where `x` is an optional string field and `y` a string. -/
def pyOr (x : Option String) (y : String) : String :=
  match truthy x with
  | some s => s
  | none => y

/-- Python `x or y` for two optional string fields: first truthy value. -/
def pyOrOpt (x y : Option String) : Option String :=
  match truthy x with
  | some s => some s
  | none => truthy y

/-- is_valid_coupon (lines 81-94).  `pInt`/`pDate` abstract `int(...)` and
`dateutil.parser.parse` (`none` = exception, caught here: return False). -/
def is_valid_coupon (pInt pDate : String → Option Int) (now : Int) (c : Coupon) : Bool :=
  match (match c.is_visible with
         | none => some (0 : Int)
         | some s => pInt s) with
  | none => false
  | some v =>
    if v ≠ 1 then false
    else
      match c.expires_at with
      | none => true
      | some e =>
        if e = "" then true
        else
          match pDate e with
          | none => false
          | some t => decide (now < t)

/-- Maximum caption length (line 29). -/
def TELEGRAM_CAPTION_MAX : Nat := 1000

/-- Whitespace for Python `str.strip()` (ASCII whitespace; the further
Unicode whitespace code points only shorten the caption and are elided). -/
def isPySpace (ch : Char) : Bool :=
  ch == (' ') || ch == ('\t') || ch == ('\n') || ch == ('\r') || ch == ('\x0B') || ch == ('\x0C')

/-- Python `str.strip()`: drop leading and trailing whitespace. -/
def pyStrip (l : List Char) : List Char :=
  ((l.dropWhile isPySpace).reverse.dropWhile isPySpace).reverse

/-- One field of the caption: when the field is truthy, the glyph-prefixed
line followed by a blank line; otherwise nothing (lines 100-140). -/
def fieldLines (pre : String) (field : Option String) : List (List Char) :=
  match truthy field with
  | none => []
  | some s => [(pre ++ s).data, []]

/-- The parts list assembled by make_caption (lines 98-145), ending in the
fixed promotional footer. -/
def captionParts (c : Coupon) : List (List Char) :=
  fieldLines ("🎉 ") c.title ++
  fieldLines ("🔥 ") c.discount_text ++
  fieldLines ("🎁 الكوبون : ") c.code ++
  fieldLines ("🌍 صالح لـ : ") c.countries ++
  fieldLines ("📌 ملاحظة : ") c.note ++
  fieldLines ("⏳ ينتهي في : ") c.expires_at ++
  fieldLines ("🛒 رابط الشراء : ") c.purchase_link ++
  [("💎 لمزيد من الكوبونات زوروا موقعنا :").data, [], (" https://receivecoupons.com/").data]

/-- `"\n".join(parts).strip()` (line 147). -/
def caption_raw (c : Coupon) : List Char :=
  pyStrip (List.intercalate [('\n')] (captionParts c))

/-- make_caption (lines 96-152): the assembled caption, truncated to
`TELEGRAM_CAPTION_MAX - 3` plus a three-character ellipsis when too long. -/
def make_caption (c : Coupon) : List Char :=
  if (caption_raw c).length > TELEGRAM_CAPTION_MAX then
    (caption_raw c).take (TELEGRAM_CAPTION_MAX - 3) ++ ("...").data
  else caption_raw c

/-- The body of sort_key (lines 188-192): the date string the parser is
applied to, `c.get("created_at") or c.get("expires_at") or "1970-01-01"`. -/
def dateField (c : Coupon) : String :=
  pyOr c.created_at (pyOr c.expires_at ("1970-01-01"))

/-- sort_key (lines 188-192) on a single Int timeline: the parsed date, and
the current instant when parsing raises (`except: return
datetime.now(timezone.utc)`).  This collapses dateutil's naive/aware
distinction onto one totally ordered timeline; it is used for the run-level
claims, whose hypotheses only concern runs in which the sort completed.
The faithful key model, under which the key comparison itself can raise,
is sort_key_py / pySortByKey below. -/
def sort_key (pDate : String → Option Int) (now : Int) (c : Coupon) : Int :=
  match pDate (dateField c) with
  | some t => t
  | none => now

/-- The comparison used by `sorted(valid, key=sort_key)` on the Int
timeline — a total order, whereas the source's datetime comparison is
partial (see pyDtLt below). -/
def keyLE (pDate : String → Option Int) (now : Int) (a b : Coupon) : Prop :=
  sort_key pDate now a ≤ sort_key pDate now b

instance (pDate : String → Option Int) (now : Int) : DecidableRel (keyLE pDate now) :=
  fun a b => inferInstanceAs (Decidable (sort_key pDate now a ≤ sort_key pDate now b))

instance (pDate : String → Option Int) (now : Int) : IsTotal Coupon (keyLE pDate now) :=
  ⟨fun a b => le_total (sort_key pDate now a) (sort_key pDate now b)⟩

instance (pDate : String → Option Int) (now : Int) : IsTrans Coupon (keyLE pDate now) :=
  ⟨fun _ _ _ hab hbc => le_trans hab hbc⟩

/-- Line 181: `[c for c in coupons if is_valid_coupon(c)]`. -/
def validCoupons (pInt pDate : String → Option Int) (now : Int) (coupons : List Coupon) : List Coupon :=
  coupons.filter (is_valid_coupon pInt pDate now)

/-- Line 194: `sorted(valid, key=sort_key)` (stable ascending sort). -/
def sortByKey (pDate : String → Option Int) (now : Int) (valid : List Coupon) : List Coupon :=
  List.insertionSort (keyLE pDate now) valid

/-- A Python datetime as dateutil and the stdlib hand them around: parsing
a string without timezone information yields an offset-naive value, one
with timezone information an offset-aware value, and
`datetime.now(timezone.utc)` is aware.  The Int is the instant on a single
timeline (UTC for aware values, the nominal wall-clock reading for naive
ones); only same-kind values are ever compared by the library. -/
inductive PyDateTime where
  | naive (t : Int)
  | aware (t : Int)
deriving DecidableEq

/-- Whether a datetime is offset-aware. -/
def isAware : PyDateTime → Bool
  | PyDateTime.naive _ => false
  | PyDateTime.aware _ => true

/-- The instant of a datetime on its timeline. -/
def tOf : PyDateTime → Int
  | PyDateTime.naive t => t
  | PyDateTime.aware t => t

/-- Python `a < b` on datetimes: comparing an offset-naive with an
offset-aware datetime raises TypeError, modelled as Except.error. -/
def pyDtLt : PyDateTime → PyDateTime → Except Unit Bool
  | PyDateTime.naive a, PyDateTime.naive b => Except.ok (decide (a < b))
  | PyDateTime.aware a, PyDateTime.aware b => Except.ok (decide (a < b))
  | _, _ => Except.error ()

/-- sort_key (lines 188-192), faithful to the returned value's kind: the
parse result is returned raw — offset-naive for a timezone-less string —
while the exception fallback `datetime.now(timezone.utc)` is offset-aware.
`pDate` abstracts dateutil.parser.parse (`none` = exception, caught here). -/
def sort_key_py (pDate : String → Option PyDateTime) (now : Int) (c : Coupon) : PyDateTime :=
  match pDate (dateField c) with
  | some d => d
  | none => PyDateTime.aware now

/-- Stable ascending insertion of `a` into a list using Python's partial
`<` only (list.sort calls nothing else): `a` goes in front of the first
element `b` for which `b < a` is false, and a raising comparison
propagates. -/
def pyOrderedInsert {α : Type} (lt : α → α → Except Unit Bool) (a : α) :
    List α → Except Unit (List α)
  | [] => Except.ok [a]
  | b :: l =>
    match lt b a with
    | Except.error e => Except.error e
    | Except.ok true =>
      match pyOrderedInsert lt a l with
      | Except.error e => Except.error e
      | Except.ok l' => Except.ok (b :: l')
    | Except.ok false => Except.ok (a :: b :: l)

/-- Python `sorted` with a partial comparison, as stable ascending
insertion sort.  CPython's Timsort raises on exactly the lists whose keys
mix offset-naive and offset-aware values (each kind is totally ordered
internally, and any mixed list forces a mixed comparison), and on
raise-free lists returns the unique stable ascending order, so this
insertion model agrees with it extensionally. -/
def pySorted {α : Type} (lt : α → α → Except Unit Bool) : List α → Except Unit (List α)
  | [] => Except.ok []
  | x :: xs =>
    match pySorted lt xs with
    | Except.error e => Except.error e
    | Except.ok l => pyOrderedInsert lt x l

/-- Line 194, `sorted(valid, key=sort_key)`, faithful to datetime keys:
the TypeError a naive/aware comparison raises is uncaught in main (the
try of the source sits inside sort_key, not around sorted). -/
def pySortByKey (pDate : String → Option PyDateTime) (now : Int) (valid : List Coupon) :
    Except Unit (List Coupon) :=
  pySorted (fun a b => pyDtLt (sort_key_py pDate now a) (sort_key_py pDate now b)) valid

/-- Ascending order of two coupons on the instants of their faithful keys. -/
def timelineLE (pDate : String → Option PyDateTime) (now : Int) (a b : Coupon) : Prop :=
  tOf (sort_key_py pDate now a) ≤ tOf (sort_key_py pDate now b)

/-- Line 199 / 242: `int(c.get("coupon_id") or c.get("id") or 0)`;
`none` models `int(...)` raising. -/
def cidOf (pInt : String → Option Int) (c : Coupon) : Option Int :=
  match pyOrOpt c.coupon_id c.id with
  | none => some 0
  | some s => pInt s

/-- The scan loop of lines 197-202: first coupon whose id is not in the
published set; `Except.error` models `int(...)` raising (uncaught there). -/
def findNext (pInt : String → Option Int) (published : List Int) :
    List Coupon → Except Unit (Option Coupon)
  | [] => Except.ok none
  | c :: rest =>
    match cidOf pInt c with
    | none => Except.error ()
    | some cid =>
      if cid ∈ published then findNext pInt published rest
      else Except.ok (some c)

/-- The Selection Engine of the spec (lines 181-210 minus delivery): filter,
stable sort, scan; when every eligible id is published, the selection falls
back to the first coupon of the sorted sequence. -/
def selectionEngine (coupons : List Coupon) (published : List Int)
    (pInt pDate : String → Option Int) (now : Int) : Except Unit (Option Coupon) :=
  let valid := validCoupons pInt pDate now coupons
  let valid_sorted := sortByKey pDate now valid
  match findNext pInt published valid_sorted with
  | Except.error e => Except.error e
  | Except.ok (some c) => Except.ok (some c)
  | Except.ok none => Except.ok valid_sorted.head?

/-- The integers of a JSON list, when all elements are integers. -/
def decodeInts : List J → Option (List Int)
  | [] => some []
  | J.int n :: rest =>
    match decodeInts rest with
    | some l => some (n :: l)
    | none => none
  | _ :: _ => none

/-- `set(state.get("published_ids", []))` (line 173): the set's elements as a
duplicate-free list; `none` models this raising, for a non-mapping state or
for published-ids values that are neither absent nor a list of integers (a
state outside the script's own snapshot format). -/
def publishedOf (st : J) : Option (List Int) :=
  match st with
  | J.obj kvs =>
    match lookupKey ("published_ids") kvs with
    | none => some []
    | some (J.arr l) =>
      match decodeInts l with
      | some ids => some ids.dedup
      | none => none
    | some _ => none
  | _ => none

/-- `sorted(list(s))` (line 244) on the set representative. -/
def sortedList (l : List Int) : List Int :=
  List.insertionSort (fun a b => a ≤ b) l

/-- The outcome of one run: exit code, resulting file system, and ghost
outputs recording what the run did, for the specification's benefit:
the coupon handed to the delivery step, the in-memory published set at that
moment (after a possible cycle reset), the published_ids list written by
save_state (when a save happened) and the id recorded as posted. -/
structure RunResult where
  exitCode : Nat
  fs : FS
  selected : Option Coupon := none
  publishedAtPost : Option (List Int) := none
  savedIds : Option (List Int) := none
  postedCid : Option Int := none

/-- Lines 216-254: deliver the selected coupon and, on a confirmed ok ack,
record it (lines 241-251; `int(...)` raising there is caught: no save, exit
0).  `resp : Option Bool` is the delivery ack: `none` a transport error,
`some b` an ack whose ok-indicator is `b` (sendPhoto and sendMessage are
handled identically).  On anything but an ok ack: `sys.exit(1)`, no save.
The git commit of the state file is an external side effect with failures
only logged, and is not modelled. -/
def deliverAndRecord (fs : FS) (path : String) (state : J) (published : List Int)
    (pInt : String → Option Int) (nowIso : String) (next : Coupon) (resp : Option Bool) :
    RunResult :=
  match resp with
  | some true =>
    match cidOf pInt next with
    | none =>
      { exitCode := 0, fs := fs, selected := some next, publishedAtPost := some published }
    | some cid =>
      let newIds := sortedList (List.insert cid published)
      let state2 := setKey (setKey state ("published_ids") (J.arr (newIds.map J.int)))
                      ("last_run") (J.str nowIso)
      { exitCode := 0, fs := save_state fs path state2, selected := some next,
        publishedAtPost := some published, savedIds := some newIds, postedCid := some cid }
  | _ =>
    { exitCode := 1, fs := fs, selected := some next, publishedAtPost := some published }

/-- main (lines 171-254).  `coupons` is the fetched list (already shaped into
records), `now`/`nowIso` the current UTC instant and its isoformat, `resp`
the delivery ack.  Uncaught exceptions (undecodable state file, a bad
published_ids value, `int(...)` raising in the scan loop) terminate the
interpreter with a traceback, exit code 1, nothing written.  The sort here
uses the total Int-timeline key: the source can additionally crash inside
sorted() when the faithful datetime keys mix naive and aware kinds (see
pySortByKey) — a run that crashes there selects nothing and writes
nothing, so the run-level claims, whose hypotheses concern stages after a
completed sort, are unaffected.  The guard
`if not next_coupon` of line 212 is dead code — a selected coupon passed
is_valid_coupon, so its mapping is non-empty — and is not modelled. -/
def runMain (fs : FS) (path : String) (coupons : List Coupon)
    (pInt pDate : String → Option Int) (now : Int) (nowIso : String)
    (resp : Option Bool) : RunResult :=
  match load_state fs path with
  | Except.error _ => { exitCode := 1, fs := fs }
  | Except.ok state =>
    match publishedOf state with
    | none => { exitCode := 1, fs := fs }
    | some published =>
      match coupons with
      | [] => { exitCode := 0, fs := fs }
      | c0 :: crest =>
        match validCoupons pInt pDate now (c0 :: crest) with
        | [] => { exitCode := 0, fs := fs }
        | v0 :: vrest =>
          let valid_sorted := sortByKey pDate now (v0 :: vrest)
          match findNext pInt published valid_sorted with
          | Except.error _ => { exitCode := 1, fs := fs }
          | Except.ok (some next) =>
            deliverAndRecord fs path state published pInt nowIso next resp
          | Except.ok none =>
            match valid_sorted.head? with
            | none => { exitCode := 1, fs := fs }
            | some first =>
              deliverAndRecord fs path (setKey state ("published_ids") (J.arr []))
                [] pInt nowIso first resp

/-- A well-formed publication state: a record whose published_ids is a
sequence of integers and whose last_run is a string or null — the shape the
script itself writes. -/
def wfState (ids : List Int) (lastRun : Option String) : J :=
  J.obj [(("published_ids"), J.arr (ids.map J.int)),
         (("last_run"), (match lastRun with | none => J.null | some s => J.str s))]

/-- Concrete int parser for witnesses: decimal reading of the two strings
the sample coupon uses. -/
def wPInt : String → Option Int :=
  fun s => if s = "1" then some 1 else if s = "5" then some 5 else none

/-- Concrete date parser for witnesses: no string parses. -/
def wPDate : String → Option Int := fun _ => none

/-- Concrete date parser for witnesses of the sort claim: the two
timezone-less date literals parse to offset-naive instants (as dateutil
returns them), everything else fails to parse. -/
def wPDateDt : String → Option PyDateTime :=
  fun s =>
    if s = "2000-01-01" then some (PyDateTime.naive 10)
    else if s = "1970-01-01" then some (PyDateTime.naive 0)
    else none

/-- A visible coupon with id 5 and no expiry. -/
def wC5 : Coupon := { coupon_id := some ("5"), is_visible := some ("1") }

/-- A coupon whose only date field is unparseable under wPDateDt. -/
def wCupBad : Coupon := { is_visible := some ("1"), created_at := some ("garbage") }

/-- A coupon with a parseable past timezone-less creation date under
wPDateDt. -/
def wCupPast : Coupon := { is_visible := some ("1"), created_at := some ("2000-01-01") }

/-- A coupon with no date fields at all: its key comes from the epoch
literal. -/
def wCupEpoch : Coupon := { is_visible := some ("1") }

/-- A snapshot state with an empty published list. -/
def wState0 : J := J.obj [(("published_ids"), J.arr []), (("last_run"), J.null)]

/-- A snapshot state whose published list is [5]. -/
def wState5 : J := J.obj [(("published_ids"), J.arr [J.int 5]), (("last_run"), J.null)]

/-- A snapshot state whose published list is [3]. -/
def wState3 : J := J.obj [(("published_ids"), J.arr [J.int 3]), (("last_run"), J.null)]

/-- A file system holding a given snapshot at path state.json. -/
def wFSWith (st : J) : FS :=
  fun p => if p = ("state.json") then some (some st) else none

/-- A coupon whose title alone makes the caption exceed the maximum. -/
def wBigCoupon : Coupon := { title := some (String.mk (List.replicate 1100 ('a'))) }

/-- C1: is_valid_coupon returns true iff the visibility flag coerces to the
integer 1 and the expiry is absent or empty or parses to an instant strictly
after the current UTC instant; a parse failure of either field yields false
rather than an exception (the function is total). -/
theorem C1_is_valid_iff (pInt pDate : String → Option Int) (now : Int) (c : Coupon) :
    is_valid_coupon pInt pDate now c = true ↔
      ((∃ s, c.is_visible = some s ∧ pInt s = some 1) ∧
        (c.expires_at = none ∨ c.expires_at = some ("") ∨
          ∃ e t, c.expires_at = some e ∧ e ≠ ("") ∧ pDate e = some t ∧ now < t)) := by
  cases hv : c.is_visible with
  | none => simp [is_valid_coupon, hv]
  | some s =>
    cases hp : pInt s with
    | none => simp [is_valid_coupon, hv, hp]
    | some v =>
      by_cases hv1 : v = 1
      · subst hv1
        cases he : c.expires_at with
        | none => simp [is_valid_coupon, hv, hp, he]
        | some e =>
          by_cases he0 : e = ""
          · subst he0
            simp [is_valid_coupon, hv, hp, he]
          · cases hd : pDate e with
            | none => simp [is_valid_coupon, hv, hp, he, he0, hd]
            | some t => simp [is_valid_coupon, hv, hp, he, he0, hd]
      · simp [is_valid_coupon, hv, hp, hv1]

/-- C3: the caption never exceeds 1000 code points; when the assembled,
stripped text exceeds 1000, the result is its 997-code-point prefix followed
by a three-character ellipsis. -/
theorem C3_caption_length_bound (c : Coupon) :
    (make_caption c).length ≤ TELEGRAM_CAPTION_MAX ∧
      (TELEGRAM_CAPTION_MAX < (caption_raw c).length →
        make_caption c = (caption_raw c).take (TELEGRAM_CAPTION_MAX - 3) ++ ("...").data) := by
  unfold make_caption
  by_cases h : (caption_raw c).length > TELEGRAM_CAPTION_MAX
  · rw [if_pos h]
    refine ⟨?_, fun _ => rfl⟩
    rw [List.length_append, List.length_take]
    have h3 : (("...").data).length = 3 := rfl
    rw [h3]
    have hmin : min (TELEGRAM_CAPTION_MAX - 3) (caption_raw c).length ≤ TELEGRAM_CAPTION_MAX - 3 :=
      min_le_left _ _
    unfold TELEGRAM_CAPTION_MAX at *
    omega
  · rw [if_neg h]
    exact ⟨le_of_not_lt h, fun hlt => absurd hlt h⟩

set_option maxRecDepth 100000 in
/-- C3 witness: a coupon whose assembled caption exceeds the maximum is
truncated to the 997-code-point prefix plus the ellipsis. -/
theorem C3_caption_length_bound_witness :
    TELEGRAM_CAPTION_MAX < (caption_raw wBigCoupon).length ∧
      make_caption wBigCoupon =
        (caption_raw wBigCoupon).take (TELEGRAM_CAPTION_MAX - 3) ++ ("...").data :=
  ⟨by decide, (C3_caption_length_bound wBigCoupon).2 (by decide)⟩

/-- C4: saving a well-formed publication state to a path and loading it from
that path returns the original state. -/
theorem C4_state_roundtrip (fs : FS) (path : String) (ids : List Int) (lastRun : Option String) :
    load_state (save_state fs path (wfState ids lastRun)) path = Except.ok (wfState ids lastRun) := by
  simp [load_state, save_state]

/-- C9: loading with no snapshot file present yields the fresh empty state
(empty published list, null last_run) without error, while an existing but
undecodable snapshot is a fatal load error, not a silent reset. -/
theorem C9_load_missing_vs_corrupt (fs : FS) (path : String) :
    (fs path = none →
      load_state fs path = Except.ok emptyState ∧
        publishedOf emptyState = some [] ∧ getKey emptyState ("last_run") = some J.null) ∧
      (fs path = some none → load_state fs path = Except.error ()) := by
  constructor
  · intro h
    exact ⟨by simp [load_state, h], rfl, rfl⟩
  · intro h
    simp [load_state, h]

/-- C9 witness: a file system without the snapshot, and one with a corrupt
snapshot, at a concrete path. -/
theorem C9_load_missing_vs_corrupt_witness :
    load_state (fun _ => none) ("state.json") = Except.ok emptyState ∧
      load_state (fun _ => some none) ("state.json") = Except.error () :=
  ⟨((C9_load_missing_vs_corrupt (fun _ => none) ("state.json")).1 rfl).1,
    (C9_load_missing_vs_corrupt (fun _ => some none) ("state.json")).2 rfl⟩

/-- C6: the feed normalizer returns a sequence body as-is; for a mapping it
prefers a sequence under the data key, then the first sequence-typed value
among the mapping's values, then empty; scalar bodies and fetch or decode
failures yield empty. -/
theorem C6_fetch_normalization :
    (∀ l, fetch_coupons (some (J.arr l)) = l) ∧
      (∀ kvs l, lookupKey ("data") kvs = some (J.arr l) →
        fetch_coupons (some (J.obj kvs)) = l) ∧
      (∀ kvs l, (∀ l', lookupKey ("data") kvs ≠ some (J.arr l')) →
        (kvs.map Prod.snd).findSome? asList = some l →
        fetch_coupons (some (J.obj kvs)) = l) ∧
      (∀ kvs, (∀ l', lookupKey ("data") kvs ≠ some (J.arr l')) →
        (kvs.map Prod.snd).findSome? asList = none →
        fetch_coupons (some (J.obj kvs)) = []) ∧
      fetch_coupons none = [] ∧
      fetch_coupons (some J.null) = [] ∧
      (∀ b, fetch_coupons (some (J.bool b)) = []) ∧
      (∀ n, fetch_coupons (some (J.int n)) = []) ∧
      (∀ s, fetch_coupons (some (J.str s)) = []) := by
  refine ⟨fun l => rfl, ?_, ?_, ?_, rfl, rfl, fun b => rfl, fun n => rfl, fun s => rfl⟩
  · intro kvs l h
    simp [fetch_coupons, h]
  · intro kvs l hnd hfs
    cases hk : lookupKey ("data") kvs with
    | none => simp [fetch_coupons, hk, hfs]
    | some j =>
      cases j with
      | arr l' => exact absurd hk (hnd l')
      | null => simp [fetch_coupons, hk, hfs]
      | bool b => simp [fetch_coupons, hk, hfs]
      | int n => simp [fetch_coupons, hk, hfs]
      | str s => simp [fetch_coupons, hk, hfs]
      | obj kvs' => simp [fetch_coupons, hk, hfs]
  · intro kvs hnd hfs
    cases hk : lookupKey ("data") kvs with
    | none => simp [fetch_coupons, hk, hfs]
    | some j =>
      cases j with
      | arr l' => exact absurd hk (hnd l')
      | null => simp [fetch_coupons, hk, hfs]
      | bool b => simp [fetch_coupons, hk, hfs]
      | int n => simp [fetch_coupons, hk, hfs]
      | str s => simp [fetch_coupons, hk, hfs]
      | obj kvs' => simp [fetch_coupons, hk, hfs]

/-- C6 witness: a mapping with a sequence under the data key normalizes to
that sequence. -/
theorem C6_fetch_normalization_witness :
    fetch_coupons (some (J.obj [(("data"), J.arr [J.null])])) = [J.null] :=
  C6_fetch_normalization.2.1 [(("data"), J.arr [J.null])] [J.null] rfl

/-- C8: the Selection Engine is deterministic.  Every ambient input of the
source — the clock and the date and int parsers — is an explicit argument of
the embedding, so two evaluations of the filter-sort-scan pipeline on the
same coupon sequence and the same published set are two applications of one
pure function to equal arguments, which agree definitionally. -/
theorem C8_selection_engine_deterministic (coupons : List Coupon) (published : List Int)
    (pInt pDate : String → Option Int) (now : Int) :
    selectionEngine coupons published pInt pDate now =
      selectionEngine coupons published pInt pDate now := rfl

/-- Helper: Python's datetime `<` on two keys of the same awareness kind
compares the instants. -/
theorem pyDtLt_same (a b : PyDateTime) (h : isAware a = isAware b) :
    pyDtLt a b = Except.ok (decide (tOf a < tOf b)) := by
  cases a with
  | naive ta =>
    cases b with
    | naive tb => rfl
    | aware tb => simp [isAware] at h
  | aware ta =>
    cases b with
    | naive tb => simp [isAware] at h
    | aware tb => rfl

/-- Helper: Python's datetime `<` raises on a naive/aware mixture. -/
theorem pyDtLt_mixed (a b : PyDateTime) (h : isAware a ≠ isAware b) :
    pyDtLt a b = Except.error () := by
  cases a with
  | naive ta =>
    cases b with
    | naive tb => simp [isAware] at h
    | aware tb => rfl
  | aware ta =>
    cases b with
    | naive tb => rfl
    | aware tb => simp [isAware] at h

/-- Helper: inserting an element whose key kind is shared by every key of
the list succeeds, yields a permutation of the extended list, and keeps
the list ascending by instants. -/
theorem pyOrderedInsert_uniform {α : Type} (k : α → PyDateTime) (kb : Bool)
    (a : α) (ha : isAware (k a) = kb) (l : List α)
    (hl : ∀ x ∈ l, isAware (k x) = kb) :
    ∃ l', pyOrderedInsert (fun u v => pyDtLt (k u) (k v)) a l = Except.ok l' ∧
      l'.Perm (a :: l) ∧
      (l.Sorted (fun u v => tOf (k u) ≤ tOf (k v)) →
        l'.Sorted (fun u v => tOf (k u) ≤ tOf (k v))) := by
  induction l with
  | nil =>
    exact ⟨[a], rfl, List.Perm.refl _, fun _ => List.sorted_singleton _⟩
  | cons b l ih =>
    have hb : isAware (k b) = kb := hl b (List.mem_cons_self _ _)
    have hlt : pyDtLt (k b) (k a) = Except.ok (decide (tOf (k b) < tOf (k a))) :=
      pyDtLt_same _ _ (by rw [hb, ha])
    by_cases hba : tOf (k b) < tOf (k a)
    · obtain ⟨l', hins, hperm, hsort⟩ := ih (fun x hx => hl x (List.mem_cons_of_mem _ hx))
      refine ⟨b :: l', ?_, ?_, ?_⟩
      · unfold pyOrderedInsert
        rw [show pyDtLt (k b) (k a) = Except.ok true from by rw [hlt]; simp [hba]]
        rw [hins]
      · exact (hperm.cons b).trans (List.Perm.swap a b l)
      · intro hs
        rw [List.sorted_cons] at hs
        obtain ⟨hbl, hsl⟩ := hs
        rw [List.sorted_cons]
        refine ⟨?_, hsort hsl⟩
        intro x hx
        rcases List.mem_cons.mp (hperm.subset hx) with h1 | h2
        · rw [h1]
          exact le_of_lt hba
        · exact hbl x h2
    · refine ⟨a :: b :: l, ?_, List.Perm.refl _, ?_⟩
      · unfold pyOrderedInsert
        rw [show pyDtLt (k b) (k a) = Except.ok false from by rw [hlt]; simp [hba]]
      · intro hs
        rw [List.sorted_cons]
        refine ⟨?_, hs⟩
        intro x hx
        rcases List.mem_cons.mp hx with h1 | h2
        · rw [h1]
          exact le_of_not_lt hba
        · exact le_trans (le_of_not_lt hba) ((List.sorted_cons.mp hs).1 x h2)

/-- Helper: sorting a list all of whose keys share one awareness kind
succeeds and returns an ascending permutation (Python raises nothing when
the keys are uniformly naive or uniformly aware). -/
theorem pySorted_uniform {α : Type} (k : α → PyDateTime) (kb : Bool)
    (l : List α) (hl : ∀ x ∈ l, isAware (k x) = kb) :
    ∃ l', pySorted (fun u v => pyDtLt (k u) (k v)) l = Except.ok l' ∧
      l'.Perm l ∧ l'.Sorted (fun u v => tOf (k u) ≤ tOf (k v)) := by
  induction l with
  | nil => exact ⟨[], rfl, List.Perm.refl _, List.sorted_nil⟩
  | cons x xs ih =>
    obtain ⟨l', hs, hperm, hsort⟩ := ih (fun y hy => hl y (List.mem_cons_of_mem _ hy))
    obtain ⟨l'', hins, hperm2, hsort2⟩ :=
      pyOrderedInsert_uniform k kb x (hl x (List.mem_cons_self _ _)) l'
        (fun y hy => hl y (List.mem_cons_of_mem _ (hperm.subset hy)))
    refine ⟨l'', ?_, ?_, hsort2 hsort⟩
    · unfold pySorted
      rw [hs]
      exact hins
    · exact hperm2.trans (hperm.cons x)

/-- Helper: sorting a list whose keys mix an offset-naive with an
offset-aware datetime raises (the TypeError of the source, uncaught). -/
theorem pySorted_mixed {α : Type} (k : α → PyDateTime) (l : List α)
    (hmix : ∃ a ∈ l, ∃ b ∈ l, isAware (k a) ≠ isAware (k b)) :
    pySorted (fun u v => pyDtLt (k u) (k v)) l = Except.error () := by
  induction l with
  | nil =>
    obtain ⟨a, ha, _⟩ := hmix
    cases ha
  | cons x xs ih =>
    by_cases hux : ∀ y ∈ xs, isAware (k y) = isAware (k x)
    · exfalso
      obtain ⟨a, ha, b, hb, hab⟩ := hmix
      have hka : isAware (k a) = isAware (k x) := by
        rcases List.mem_cons.mp ha with h | h
        · rw [h]
        · exact hux a h
      have hkb : isAware (k b) = isAware (k x) := by
        rcases List.mem_cons.mp hb with h | h
        · rw [h]
        · exact hux b h
      exact hab (hka.trans hkb.symm)
    · push_neg at hux
      obtain ⟨y, hy, hyx⟩ := hux
      by_cases hmixxs : ∃ u ∈ xs, ∃ v ∈ xs, isAware (k u) ≠ isAware (k v)
      · have herr := ih hmixxs
        unfold pySorted
        rw [herr]
      · push_neg at hmixxs
        have huni : ∀ z ∈ xs, isAware (k z) = isAware (k y) :=
          fun z hz => hmixxs z hz y hy
        obtain ⟨l', hs, hperm, _⟩ := pySorted_uniform k (isAware (k y)) xs huni
        cases hl' : l' with
        | nil =>
          exfalso
          rw [hl'] at hperm
          exact absurd hy (by rw [hperm.symm.eq_nil]; exact List.not_mem_nil y)
        | cons c rest =>
          have hcm : c ∈ xs := hperm.subset (hl' ▸ List.mem_cons_self c rest)
          have herr1 : pyDtLt (k c) (k x) = Except.error () :=
            pyDtLt_mixed _ _ (by rw [huni c hcm]; exact hyx)
          unfold pySorted
          rw [hs, hl']
          show pyOrderedInsert (fun u v => pyDtLt (k u) (k v)) x (c :: rest) = Except.error ()
          unfold pyOrderedInsert
          rw [herr1]

/-- C7 counterexample: at the claim's own scenario — one eligible coupon
with a malformed date, one with a parseable past timezone-less date — the
key of the first is offset-aware (the now() fallback) and the key of the
second offset-naive (raw dateutil result), so the sort raises an uncaught
TypeError instead of placing the malformed coupon after the parseable one;
"the sort itself never raises an exception" is false of the program. -/
theorem C7_sort_counterexample :
    sort_key_py wPDateDt 100 wCupBad = PyDateTime.aware 100 ∧
      sort_key_py wPDateDt 100 wCupPast = PyDateTime.naive 10 ∧
      (10 : Int) < 100 ∧
      pySortByKey wPDateDt 100 [wCupBad, wCupPast] = Except.error () :=
  ⟨rfl, rfl, by decide, rfl⟩

/-- C7 amended: the key is the raw parsed creation timestamp if present,
else the raw parsed expiry timestamp if present, else the parsed epoch
start literal — offset-naive for timezone-less strings — while an
unparseable date keys as the offset-aware current instant.  When every key
has one awareness kind the sort succeeds and returns an ascending
permutation; when the keys mix kinds — in particular a malformed date
together with a timezone-less parseable one — the comparison raises an
uncaught TypeError, so the run crashes rather than placing malformed-date
coupons after parseable ones. -/
theorem C7_sort_order_amended (pDate : String → Option PyDateTime) (now : Int)
    (valid : List Coupon) :
    (∀ c s, truthy c.created_at = some s →
        sort_key_py pDate now c = (pDate s).getD (PyDateTime.aware now)) ∧
      (∀ c s, truthy c.created_at = none → truthy c.expires_at = some s →
        sort_key_py pDate now c = (pDate s).getD (PyDateTime.aware now)) ∧
      (∀ c, truthy c.created_at = none → truthy c.expires_at = none →
        sort_key_py pDate now c = (pDate ("1970-01-01")).getD (PyDateTime.aware now)) ∧
      (∀ kb, (∀ x ∈ valid, isAware (sort_key_py pDate now x) = kb) →
        ∃ l, pySortByKey pDate now valid = Except.ok l ∧ l.Perm valid ∧
          l.Sorted (timelineLE pDate now)) ∧
      (∀ a b, a ∈ valid → b ∈ valid →
        isAware (sort_key_py pDate now a) ≠ isAware (sort_key_py pDate now b) →
        pySortByKey pDate now valid = Except.error ()) := by
  refine ⟨?_, ?_, ?_, ?_, ?_⟩
  · intro c s h
    unfold sort_key_py dateField pyOr
    rw [h]
    cases pDate s <;> rfl
  · intro c s h1 h2
    unfold sort_key_py dateField pyOr
    rw [h1, h2]
    cases pDate s <;> rfl
  · intro c h1 h2
    unfold sort_key_py dateField pyOr
    rw [h1, h2]
    cases pDate ("1970-01-01") <;> rfl
  · intro kb h
    exact pySorted_uniform (sort_key_py pDate now) kb valid h
  · intro a b ha hb hmix
    exact pySorted_mixed (sort_key_py pDate now) valid ⟨a, ha, b, hb, hmix⟩

/-- C7 amended witness: a uniform-kind list sorts to an ascending
permutation, and the concrete mixed-kind list raises. -/
theorem C7_sort_order_amended_witness :
    (∃ l, pySortByKey wPDateDt 100 [wCupPast, wCupEpoch] = Except.ok l ∧
        l.Perm [wCupPast, wCupEpoch] ∧ l.Sorted (timelineLE wPDateDt 100)) ∧
      pySortByKey wPDateDt 100 [wCupBad, wCupPast] = Except.error () :=
  ⟨(C7_sort_order_amended wPDateDt 100 [wCupPast, wCupEpoch]).2.2.2.1 false (by decide),
    (C7_sort_order_amended wPDateDt 100 [wCupBad, wCupPast]).2.2.2.2 wCupBad wCupPast
      (by decide) (by decide) (by decide)⟩

/-- Helper: the in-memory published set built by main is duplicate-free. -/
theorem publishedOf_nodup {st : J} {l : List Int} (h : publishedOf st = some l) : l.Nodup := by
  unfold publishedOf at h
  split at h
  · split at h
    · simp only [Option.some.injEq] at h
      rw [← h]
      exact List.nodup_nil
    · split at h
      · simp only [Option.some.injEq] at h
        rw [← h]
        exact List.nodup_dedup _
      · simp at h
    · simp at h
  · simp at h

/-- Helper: the delivery step always records which coupon it handled and on
which in-memory published set it acted. -/
theorem deliverAndRecord_ghost (fs : FS) (path : String) (state : J) (published : List Int)
    (pInt : String → Option Int) (nowIso : String) (next : Coupon) (resp : Option Bool) :
    (deliverAndRecord fs path state published pInt nowIso next resp).selected = some next ∧
      (deliverAndRecord fs path state published pInt nowIso next resp).publishedAtPost =
        some published := by
  unfold deliverAndRecord
  cases resp with
  | none => exact ⟨rfl, rfl⟩
  | some b =>
    cases b with
    | false => exact ⟨rfl, rfl⟩
    | true =>
      cases cidOf pInt next with
      | none => exact ⟨rfl, rfl⟩
      | some cid => exact ⟨rfl, rfl⟩

/-- Helper: an unconfirmed delivery writes nothing and exits 1. -/
theorem deliverAndRecord_fail (fs : FS) (path : String) (state : J) (published : List Int)
    (pInt : String → Option Int) (nowIso : String) (next : Coupon) (resp : Option Bool)
    (h : resp ≠ some true) :
    (deliverAndRecord fs path state published pInt nowIso next resp).fs = fs ∧
      (deliverAndRecord fs path state published pInt nowIso next resp).exitCode = 1 ∧
      (deliverAndRecord fs path state published pInt nowIso next resp).savedIds = none := by
  unfold deliverAndRecord
  cases resp with
  | none => exact ⟨rfl, rfl, rfl⟩
  | some b =>
    cases b with
    | false => exact ⟨rfl, rfl, rfl⟩
    | true => exact absurd rfl h

/-- Helper: a confirmed delivery with a coercible id writes exactly the
sorted insertion of that id into the in-memory set. -/
theorem deliverAndRecord_ok (fs : FS) (path : String) (state : J) (published : List Int)
    (pInt : String → Option Int) (nowIso : String) (next : Coupon) (cid : Int)
    (hcid : cidOf pInt next = some cid) :
    (deliverAndRecord fs path state published pInt nowIso next (some true)).savedIds =
        some (sortedList (List.insert cid published)) ∧
      (deliverAndRecord fs path state published pInt nowIso next (some true)).postedCid =
        some cid := by
  unfold deliverAndRecord
  rw [hcid]
  exact ⟨rfl, rfl⟩

/-- Helper case analysis of runMain: either the run ended before the delivery
step — nothing selected, the file system untouched, nothing saved — or the
result is the delivery step applied to a duplicate-free in-memory published
set. -/
theorem runMain_shape (fs : FS) (path : String) (coupons : List Coupon)
    (pInt pDate : String → Option Int) (now : Int) (nowIso : String) (resp : Option Bool) :
    ((runMain fs path coupons pInt pDate now nowIso resp).selected = none ∧
      (runMain fs path coupons pInt pDate now nowIso resp).fs = fs ∧
      (runMain fs path coupons pInt pDate now nowIso resp).savedIds = none) ∨
    (∃ state published next, published.Nodup ∧
      runMain fs path coupons pInt pDate now nowIso resp =
        deliverAndRecord fs path state published pInt nowIso next resp) := by
  cases hl : load_state fs path with
  | error e => left; simp [runMain, hl]
  | ok state =>
    cases hp : publishedOf state with
    | none => left; simp [runMain, hl, hp]
    | some published =>
      cases coupons with
      | nil => left; simp [runMain, hl, hp]
      | cons c0 crest =>
        cases hv : validCoupons pInt pDate now (c0 :: crest) with
        | nil => left; simp [runMain, hl, hp, hv]
        | cons v0 vrest =>
          cases hf : findNext pInt published (sortByKey pDate now (v0 :: vrest)) with
          | error e => left; simp [runMain, hl, hp, hv, hf]
          | ok found =>
            cases found with
            | some next =>
              right
              exact ⟨state, published, next, publishedOf_nodup hp,
                by simp [runMain, hl, hp, hv, hf]⟩
            | none =>
              cases hh : (sortByKey pDate now (v0 :: vrest)).head? with
              | none => left; simp [runMain, hl, hp, hv, hf, hh]
              | some first =>
                right
                exact ⟨setKey state ("published_ids") (J.arr []), [], first, List.nodup_nil,
                  by simp [runMain, hl, hp, hv, hf, hh]⟩

/-- C5: in any run in which a coupon reached the delivery step but delivery
was not confirmed ok (failure ack, missing ok indicator, or transport
error), the persisted state file is left exactly as it was and the process
exit code is non-zero. -/
theorem C5_delivery_failure_preserves_state (fs : FS) (path : String) (coupons : List Coupon)
    (pInt pDate : String → Option Int) (now : Int) (nowIso : String) (resp : Option Bool)
    (c : Coupon) (hresp : resp ≠ some true)
    (hsel : (runMain fs path coupons pInt pDate now nowIso resp).selected = some c) :
    (runMain fs path coupons pInt pDate now nowIso resp).fs = fs ∧
      (runMain fs path coupons pInt pDate now nowIso resp).exitCode ≠ 0 := by
  rcases runMain_shape fs path coupons pInt pDate now nowIso resp with
    ⟨h1, _, _⟩ | ⟨st, pub, next, _, heq⟩
  · rw [h1] at hsel
    exact absurd hsel (by simp)
  · rw [heq]
    have h := deliverAndRecord_fail fs path st pub pInt nowIso next resp hresp
    exact ⟨h.1, by rw [h.2.1]; exact one_ne_zero⟩

/-- C5 witness: a concrete run on a visible coupon with a failure ack leaves
the concrete file system untouched and exits non-zero. -/
theorem C5_delivery_failure_witness :
    (runMain (wFSWith wState0) ("state.json") [wC5] wPInt wPDate 100 ("t")
        (some false)).selected = some wC5 ∧
      ((runMain (wFSWith wState0) ("state.json") [wC5] wPInt wPDate 100 ("t")
          (some false)).fs = wFSWith wState0 ∧
        (runMain (wFSWith wState0) ("state.json") [wC5] wPInt wPDate 100 ("t")
          (some false)).exitCode ≠ 0) :=
  ⟨rfl, C5_delivery_failure_preserves_state (wFSWith wState0) ("state.json") [wC5]
    wPInt wPDate 100 ("t") (some false) wC5 (by simp) rfl⟩

/-- C10: whenever a run saves the state after a confirmed post, the written
published_ids list is duplicate-free, sorted ascending, and contains the
posted id together with every id of the (possibly reset) in-memory prior
set; this holds for every run. -/
theorem C10_saved_published_ids (fs : FS) (path : String) (coupons : List Coupon)
    (pInt pDate : String → Option Int) (now : Int) (nowIso : String) (resp : Option Bool)
    (l P : List Int) (cid : Int)
    (hl : (runMain fs path coupons pInt pDate now nowIso resp).savedIds = some l)
    (hcid : (runMain fs path coupons pInt pDate now nowIso resp).postedCid = some cid)
    (hP : (runMain fs path coupons pInt pDate now nowIso resp).publishedAtPost = some P) :
    l.Sorted (fun a b => a ≤ b) ∧ l.Nodup ∧ cid ∈ l ∧ ∀ x ∈ P, x ∈ l := by
  rcases runMain_shape fs path coupons pInt pDate now nowIso resp with
    ⟨_, _, h3⟩ | ⟨st, pub, next, hnd, heq⟩
  · rw [h3] at hl
    simp at hl
  · rw [heq] at hl hcid hP
    cases resp with
    | none => simp [deliverAndRecord] at hl
    | some b =>
      cases b with
      | false => simp [deliverAndRecord] at hl
      | true =>
        cases hc : cidOf pInt next with
        | none =>
          unfold deliverAndRecord at hl
          rw [hc] at hl
          simp at hl
        | some cid' =>
          have hok := deliverAndRecord_ok fs path st pub pInt nowIso next cid' hc
          have hg := deliverAndRecord_ghost fs path st pub pInt nowIso next (some true)
          rw [hok.1] at hl
          rw [hok.2] at hcid
          rw [hg.2] at hP
          simp only [Option.some.injEq] at hl hcid hP
          subst hl hcid hP
          unfold sortedList
          refine ⟨List.sorted_insertionSort _ _, ?_, ?_, ?_⟩
          · exact ((List.perm_insertionSort _ _).nodup_iff).mpr hnd.insert
          · exact (List.perm_insertionSort _ _).mem_iff.mpr (List.mem_insert_self _ _)
          · intro x hx
            exact (List.perm_insertionSort _ _).mem_iff.mpr (List.mem_insert_of_mem hx)

/-- C10 witness: posting coupon 5 over the prior set containing 3 writes the
list [3, 5], which is sorted, duplicate-free and complete. -/
theorem C10_saved_published_ids_witness :
    (runMain (wFSWith wState3) ("state.json") [wC5] wPInt wPDate 100 ("t")
        (some true)).savedIds = some [3, 5] ∧
      ([(3:Int), 5].Sorted (fun a b => a ≤ b) ∧ [(3:Int), 5].Nodup ∧
        (5:Int) ∈ [(3:Int), 5] ∧ ∀ x ∈ [(3:Int)], x ∈ [(3:Int), 5]) :=
  ⟨rfl, C10_saved_published_ids (wFSWith wState3) ("state.json") [wC5] wPInt wPDate 100
    ("t") (some true) [3, 5] [3] 5 rfl rfl rfl⟩

/-- C2 counterexample: a concrete cycle-complete run — the eligible sorted
sequence is non-empty and every eligible id is already published — whose
delivery fails: the run exits 1 and the persisted snapshot still holds the
old, non-empty published list, refuting the claim that the reset reaches
the persisted state independent of the post's success. -/
theorem C2_cycle_reset_counterexample :
    validCoupons wPInt wPDate 100 [wC5] = [wC5] ∧
      findNext wPInt [5] (sortByKey wPDate 100 (validCoupons wPInt wPDate 100 [wC5])) =
        Except.ok none ∧
      publishedOf wState5 = some [5] ∧
      (runMain (wFSWith wState5) ("state.json") [wC5] wPInt wPDate 100 ("t")
        (some false)).exitCode = 1 ∧
      (runMain (wFSWith wState5) ("state.json") [wC5] wPInt wPDate 100 ("t")
        (some false)).fs ("state.json") = some (some wState5) ∧
      publishedOf wState5 ≠ some [] :=
  ⟨rfl, rfl, rfl, rfl, rfl, by decide⟩

/-- C2 amended: when the eligible sorted sequence is non-empty and every
eligible coupon's id is already in the published set, main clears the
published set in memory and selects the first coupon of the sorted
sequence; the persisted state, however, is written only by a confirmed
post — on an unconfirmed delivery nothing is saved and the file system is
unchanged, while a confirmed post saves exactly the singleton of the posted
coupon's id. -/
theorem C2_cycle_reset_amended (fs : FS) (path : String) (coupons : List Coupon)
    (pInt pDate : String → Option Int) (now : Int) (nowIso : String) (resp : Option Bool)
    (state : J) (published : List Int) (c0 : Coupon) (crest : List Coupon) (first : Coupon)
    (hload : load_state fs path = Except.ok state)
    (hpub : publishedOf state = some published)
    (hcoup : coupons = c0 :: crest)
    (hfind : findNext pInt published
        (sortByKey pDate now (validCoupons pInt pDate now coupons)) = Except.ok none)
    (hfirst : (sortByKey pDate now (validCoupons pInt pDate now coupons)).head? = some first) :
    (runMain fs path coupons pInt pDate now nowIso resp).selected = some first ∧
      (runMain fs path coupons pInt pDate now nowIso resp).publishedAtPost = some [] ∧
      (resp ≠ some true →
        (runMain fs path coupons pInt pDate now nowIso resp).fs = fs ∧
          (runMain fs path coupons pInt pDate now nowIso resp).savedIds = none) ∧
      (∀ cid, resp = some true → cidOf pInt first = some cid →
        (runMain fs path coupons pInt pDate now nowIso resp).savedIds = some [cid]) := by
  subst hcoup
  cases hv : validCoupons pInt pDate now (c0 :: crest) with
  | nil =>
    rw [hv] at hfirst
    simp [sortByKey] at hfirst
  | cons v0 vrest =>
    rw [hv] at hfind hfirst
    have hrm : runMain fs path (c0 :: crest) pInt pDate now nowIso resp =
        deliverAndRecord fs path (setKey state ("published_ids") (J.arr []))
          [] pInt nowIso first resp := by
      simp [runMain, hload, hpub, hv, hfind, hfirst]
    rw [hrm]
    refine ⟨(deliverAndRecord_ghost _ _ _ _ _ _ _ _).1,
      (deliverAndRecord_ghost _ _ _ _ _ _ _ _).2, ?_, ?_⟩
    · intro h
      have hf := deliverAndRecord_fail fs path (setKey state ("published_ids") (J.arr []))
        [] pInt nowIso first resp h
      exact ⟨hf.1, hf.2.2⟩
    · intro cid hr hcid
      subst hr
      rw [(deliverAndRecord_ok fs path (setKey state ("published_ids") (J.arr []))
        [] pInt nowIso first cid hcid).1]
      rfl

/-- C2 amended witness: a concrete cycle-complete run with a confirmed post
selects the only coupon, resets the in-memory set, and persists exactly the
posted id. -/
theorem C2_cycle_reset_amended_witness :
    findNext wPInt [5] (sortByKey wPDate 100 (validCoupons wPInt wPDate 100 [wC5])) =
        Except.ok none ∧
      (runMain (wFSWith wState5) ("state.json") [wC5] wPInt wPDate 100 ("t")
        (some true)).selected = some wC5 ∧
      (runMain (wFSWith wState5) ("state.json") [wC5] wPInt wPDate 100 ("t")
        (some true)).publishedAtPost = some [] ∧
      (runMain (wFSWith wState5) ("state.json") [wC5] wPInt wPDate 100 ("t")
        (some true)).savedIds = some [5] := by
  have H := C2_cycle_reset_amended (wFSWith wState5) ("state.json") [wC5] wPInt wPDate
    100 ("t") (some true) wState5 [5] wC5 [] wC5 rfl rfl rfl rfl rfl
  exact ⟨rfl, H.1, H.2.1, H.2.2.2 5 rfl rfl⟩

end PostToTelegram
